import Mathlib

/-!
Verification development for the lightdrift-libraw binding layer
(src/src/libraw_wrapper.cpp).  The wrapper keeps three booleans
(isLoaded / isUnpacked / isProcessed) guarding call order and forwards
every operation to a LibRaw processor instance.  The wrapper code is
embedded directly from the source; the wrapped LibRaw engine is not part
of this repository, so its state-dependent behaviour is modelled from the
specification (each such definition is marked `Modelled from the spec:`).
Genuinely external outcomes (file system results, decode results for a
given byte source) are supplied by an environment of oracle functions.
-/

set_option autoImplicit false

namespace LibRawBinding

/-- A byte source handed to the engine: a file path or an in-memory buffer. -/
inductive ByteSource where
  | file (path : String)
  | buffer (bytes : List Nat)
deriving Repr, DecidableEq

/-- Output parameters marshalled by the wrapper (the fields of
libraw_output_params_t that SetOutputParams / GetOutputParams touch).
C float/double values are represented by rationals. -/
structure OutputParams where
  gamm0 : Rat
  gamm1 : Rat
  bright : Rat
  output_color : Int
  output_bps : Int
  user_mul0 : Rat
  user_mul1 : Rat
  user_mul2 : Rat
  user_mul3 : Rat
  no_auto_bright : Int
  highlight : Int
  output_tiff : Int
deriving Repr, DecidableEq

/-- Modelled from the spec: default output parameters, "defaults chosen by
the engine when absent" (gamma power/toe-slope, brightness 1, sRGB, 8 bit,
no user multipliers, auto-brightness on, highlight clip, PPM container). -/
def OutputParams.init : OutputParams :=
  { gamm0 := 9 / 20
    gamm1 := 9 / 2
    bright := 1
    output_color := 1
    output_bps := 8
    user_mul0 := 0
    user_mul1 := 0
    user_mul2 := 0
    user_mul3 := 0
    no_auto_bright := 0
    highlight := 0
    output_tiff := 0 }

/-- The metadata fields of the engine's imgdata that GetMetadata reads. -/
structure Metadata where
  make : String
  model : String
  software : String
  width : Nat
  height : Nat
  raw_width : Nat
  raw_height : Nat
  colors : Int
  filters : Nat
  iso_speed : Rat
  shutter : Rat
  aperture : Rat
  focal_len : Rat
  timestamp : Int
deriving Repr, DecidableEq

/-- Modelled from the spec: metadata of an empty session (all fields absent). -/
def Metadata.init : Metadata :=
  { make := ""
    model := ""
    software := ""
    width := 0
    height := 0
    raw_width := 0
    raw_height := 0
    colors := 0
    filters := 0
    iso_speed := 0
    shutter := 0
    aperture := 0
    focal_len := 0
    timestamp := 0 }

/-- A libraw_processed_image_t: header fields plus the pixel byte buffer.
The data buffer holds the image bytes; data_size is the declared byte
count of the pixel data. -/
structure ProcessedImage where
  type : Int
  height : Nat
  width : Nat
  colors : Nat
  bits : Nat
  data_size : Nat
  data : List Nat
deriving Repr, DecidableEq

/-- Modelled from the spec: the state of the wrapped LibRaw engine that the
binding's calls depend on.  A RawSession holds the loaded byte source, the
unpacked Sensor Array, the Metadata, and (after processing) the Output
Image; the thumbnail block is unpacked separately; OutputParams configure
processing; non-fatal per-row unpack defects are counted in errCount. -/
structure EngineState where
  opened : Option ByteSource
  unpacked : Bool
  sensor : List Nat
  meta : Metadata
  outImage : Option ProcessedImage
  thumbUnpacked : Bool
  staged : Bool
  params : OutputParams
  errCount : Nat
  cancel : Bool
deriving Repr, DecidableEq

/-- Modelled from the spec: a freshly constructed engine with no byte
source, no Sensor Array, no Output Image and default parameters. -/
def EngineState.init : EngineState :=
  { opened := none
    unpacked := false
    sensor := []
    meta := Metadata.init
    outImage := none
    thumbUnpacked := false
    staged := false
    params := OutputParams.init
    errCount := 0
    cancel := false }

/-- Modelled from the spec: recycle releases all buffers of the session
(byte source, Sensor Array, Output Image) while processing parameters set
by the caller persist for the next decode. -/
def EngineState.recycle (s : EngineState) : EngineState :=
  { EngineState.init with params := s.params }

/-- Environment of the wrapped engine: the outcome of each external call
as a function of its visible inputs.  LIBRAW_SUCCESS is 0; any nonzero
code is a failure.  Deterministic functions model the spec's contract that
decoding and processing are pure in the byte source and the parameters. -/
structure EngineEnv where
  openRet : ByteSource → Int
  metaOf : ByteSource → Metadata
  unpackRet : ByteSource → Int
  decode : ByteSource → List Nat
  warnings : ByteSource → Nat
  thumbRet : ByteSource → Int
  thumbOf : ByteSource → ProcessedImage
  processRet : List Nat → OutputParams → Int
  processOut : List Nat → OutputParams → ProcessedImage
  writeRet : String → Int
  blackSub : List Nat → List Nat
  strerror : Int → String

/-- Modelled from the spec: open_file / open_buffer.  The previous session
is recycled, then the Format Sniffer identifies the container; on success
the byte source is attached and the Metadata populated, on failure the
session stays empty and the error code is returned. -/
def EngineEnv.openSource (env : EngineEnv) (src : ByteSource) (s : EngineState) :
    EngineState × Int :=
  let base := s.recycle
  if env.openRet src = 0 then
    ({ base with opened := some src, meta := env.metaOf src }, 0)
  else
    (base, env.openRet src)

/-- Modelled from the spec: the engine's unpack.  An idempotent no-op when
the Sensor Array is already populated; out-of-order without a byte source;
otherwise the Sensor Data Unpacker decodes the sensor block, recording
non-fatal per-row defects in the warning counter, or fails. -/
def EngineEnv.unpack (env : EngineEnv) (s : EngineState) : EngineState × Int :=
  if s.unpacked then
    (s, 0)
  else
    match s.opened with
    | none => (s, -4)
    | some src =>
      if env.unpackRet src = 0 then
        ({ s with unpacked := true, sensor := env.decode src,
                  errCount := env.warnings src }, 0)
      else
        (s, env.unpackRet src)

/-- Modelled from the spec: unpack_thumb decodes the thumbnail block
located by the container parser; out-of-order without a byte source. -/
def EngineEnv.unpackThumb (env : EngineEnv) (s : EngineState) : EngineState × Int :=
  match s.opened with
  | none => (s, -4)
  | some src =>
    if env.thumbRet src = 0 then
      ({ s with thumbUnpacked := true }, 0)
    else
      (s, env.thumbRet src)

/-- Modelled from the spec: dcraw_process runs the fixed-order Processing
Pipeline against the unchanged Sensor Array and the current OutputParams;
it requires the Sensor Array, and on success it populates the Output
Image.  The result is a pure function of sensor data and parameters. -/
def EngineEnv.dcrawProcess (env : EngineEnv) (s : EngineState) : EngineState × Int :=
  if s.unpacked then
    if env.processRet s.sensor s.params = 0 then
      ({ s with outImage := some (env.processOut s.sensor s.params) }, 0)
    else
      (s, env.processRet s.sensor s.params)
  else
    (s, -4)

/-- Modelled from the spec: dcraw_make_mem_image allocates a
libraw_processed_image_t copy of the Output Image; operations requiring
the Output Image fail if process has not succeeded. -/
def EngineEnv.makeMemImage (_ : EngineEnv) (s : EngineState) :
    Option ProcessedImage × Int :=
  match s.outImage with
  | some img => (some img, 0)
  | none => (none, -4)

/-- Modelled from the spec: dcraw_make_mem_thumb allocates a
libraw_processed_image_t holding the extracted thumbnail; it requires the
thumbnail block to have been unpacked. -/
def EngineEnv.makeMemThumb (env : EngineEnv) (s : EngineState) :
    Option ProcessedImage × Int :=
  if s.thumbUnpacked then
    match s.opened with
    | some src => (some (env.thumbOf src), 0)
    | none => (none, -4)
  else
    (none, -4)

/-- Modelled from the spec: dcraw_ppm_tiff_writer serializes the Output
Image to the named file; it requires the Output Image and otherwise fails
with the file-system outcome for the path. -/
def EngineEnv.ppmTiffWriter (env : EngineEnv) (s : EngineState) (fname : String) : Int :=
  match s.outImage with
  | none => -4
  | some _ => env.writeRet fname

/-- Modelled from the spec: subtract_black subtracts the black level from
every sensor sample in place; the effect on the samples is supplied by the
environment. -/
def EngineEnv.subtractBlackE (env : EngineEnv) (s : EngineState) : EngineState :=
  { s with sensor := env.blackSub s.sensor }

/-- Modelled from the spec: raw2image stages the Sensor Array into the
engine's internal 4-component working layout; the Output Image itself is
populated only by process. -/
def EngineEnv.raw2imageE (_ : EngineEnv) (s : EngineState) : EngineState :=
  { s with staged := true }

/-- Modelled from the spec: free_image releases the engine's internal
Output Image buffer. -/
def EngineEnv.freeImageE (_ : EngineEnv) (s : EngineState) : EngineState :=
  { s with outImage := none }

/-! The binding layer, translated from src/src/libraw_wrapper.cpp. -/

/-- A JavaScript exception thrown by the wrapper. -/
inductive JsError where
  | typeError (msg : String)
  | jsError (msg : String)
deriving Repr, DecidableEq

/-- The message of the CheckLoaded guard (libraw_wrapper.cpp line 89). -/
def notLoadedMsg : String := "No file loaded. Call loadFile() first."

/-- CheckLoaded (lines 85-93): true iff a file is loaded; callers throw
the notLoadedMsg error when it is false. -/
def CheckLoaded (isLoaded : Bool) : Bool := isLoaded

/-- Whether a wrapper call returned normally (no exception thrown). -/
def resultOk {α : Type} : Except JsError α → Bool
  | .ok _ => true
  | .error _ => false

/-- The wrapper state: the LibRaw processor plus the three guard flags
initialised false by the constructor (line 65). -/
structure WrapperState where
  isLoaded : Bool
  isUnpacked : Bool
  isProcessed : Bool
  engine : EngineState
deriving Repr, DecidableEq

/-- The state set up by the constructor (lines 64-75). -/
def WrapperState.ctor : WrapperState :=
  { isLoaded := false
    isUnpacked := false
    isProcessed := false
    engine := EngineState.init }

/-- LoadFile (lines 97-130): open_file, then unpack; each failure is
rethrown with its strerror text; on success the flags become
loaded/unpacked with processed reset. -/
def LoadFile (env : EngineEnv) (filename : String) (s : WrapperState) :
    WrapperState × Except JsError Bool :=
  let r1 := env.openSource (.file filename) s.engine
  if r1.2 ≠ 0 then
    ({ s with engine := r1.1 },
     .error (.jsError ("Failed to open file: " ++ env.strerror r1.2)))
  else
    let r2 := env.unpack r1.1
    if r2.2 ≠ 0 then
      ({ s with engine := r2.1 },
       .error (.jsError ("Failed to unpack file: " ++ env.strerror r2.2)))
    else
      ({ isLoaded := true, isUnpacked := true, isProcessed := false, engine := r2.1 },
       .ok true)

/-- LoadBuffer (lines 132-165): open_buffer, then unpack; mirrors
LoadFile. -/
def LoadBuffer (env : EngineEnv) (buf : List Nat) (s : WrapperState) :
    WrapperState × Except JsError Bool :=
  let r1 := env.openSource (.buffer buf) s.engine
  if r1.2 ≠ 0 then
    ({ s with engine := r1.1 },
     .error (.jsError ("Failed to open buffer: " ++ env.strerror r1.2)))
  else
    let r2 := env.unpack r1.1
    if r2.2 ≠ 0 then
      ({ s with engine := r2.1 },
       .error (.jsError ("Failed to unpack buffer: " ++ env.strerror r2.2)))
    else
      ({ isLoaded := true, isUnpacked := true, isProcessed := false, engine := r2.1 },
       .ok true)

/-- Close (lines 167-180): recycle the processor and clear the flags when
loaded, otherwise do nothing; always returns true. -/
def Close (s : WrapperState) : WrapperState × Except JsError Bool :=
  if s.isLoaded then
    ({ isLoaded := false, isUnpacked := false, isProcessed := false,
       engine := s.engine.recycle }, .ok true)
  else
    (s, .ok true)

/-- Unpack (lines 966-981): guard on CheckLoaded, then forward to the
engine's unpack and rethrow its failure. -/
def Unpack (env : EngineEnv) (s : WrapperState) :
    WrapperState × Except JsError Bool :=
  if ¬ CheckLoaded s.isLoaded then
    (s, .error (.jsError notLoadedMsg))
  else
    let r := env.unpack s.engine
    if r.2 ≠ 0 then
      ({ s with engine := r.1 },
       .error (.jsError ("Failed to unpack: " ++ env.strerror r.2)))
    else
      ({ s with engine := r.1 }, .ok true)

/-- UnpackThumbnail (lines 419-434): guard, then unpack_thumb. -/
def UnpackThumbnail (env : EngineEnv) (s : WrapperState) :
    WrapperState × Except JsError Bool :=
  if ¬ CheckLoaded s.isLoaded then
    (s, .error (.jsError notLoadedMsg))
  else
    let r := env.unpackThumb s.engine
    if r.2 ≠ 0 then
      ({ s with engine := r.1 },
       .error (.jsError ("Failed to unpack thumbnail: " ++ env.strerror r.2)))
    else
      ({ s with engine := r.1 }, .ok true)

/-- ProcessImage (lines 436-452): guard, call dcraw_process, rethrow a
failure; only on success set isProcessed. -/
def ProcessImage (env : EngineEnv) (s : WrapperState) :
    WrapperState × Except JsError Bool :=
  if ¬ CheckLoaded s.isLoaded then
    (s, .error (.jsError notLoadedMsg))
  else
    let r := env.dcrawProcess s.engine
    if r.2 ≠ 0 then
      ({ s with engine := r.1 },
       .error (.jsError ("Failed to process image: " ++ env.strerror r.2)))
    else
      ({ s with engine := r.1, isProcessed := true }, .ok true)

/-- The JavaScript object built by CreateImageDataObject: header fields
plus a Buffer holding a copy of the pixel bytes. -/
structure ImageDataObject where
  type : Int
  height : Nat
  width : Nat
  colors : Nat
  bits : Nat
  dataSize : Nat
  data : List Nat
deriving Repr, DecidableEq

/-- CreateImageDataObject (lines 507-528): copy the header fields and
Buffer::Copy the first data_size bytes of the image's pixel buffer. -/
def CreateImageDataObject (img : ProcessedImage) : ImageDataObject :=
  { type := img.type
    height := img.height
    width := img.width
    colors := img.colors
    bits := img.bits
    dataSize := img.data_size
    data := img.data.take img.data_size }

instance {ε α : Type} [DecidableEq ε] [DecidableEq α] : DecidableEq (Except ε α) := fun x y =>
  match x, y with
  | .ok a, .ok b =>
    if h : a = b then .isTrue (by rw [h]) else .isFalse (by simp [h])
  | .error a, .error b =>
    if h : a = b then .isTrue (by rw [h]) else .isFalse (by simp [h])
  | .ok _, .error _ => .isFalse (by simp)
  | .error _, .ok _ => .isFalse (by simp)

/-- Outcome of a memory-image call: the thrown error or the returned
object, and whether dcraw_clear_mem released the engine's allocation
before the call returned. -/
structure MemImageOutcome where
  result : Except JsError ImageDataObject
  released : Bool
deriving Repr, DecidableEq

/-- CreateMemoryImage (lines 530-557): guard, dcraw_make_mem_image, throw
on a null image or error code, otherwise build the data object and free
the engine allocation with dcraw_clear_mem.  The wrapper state is not
modified. -/
def CreateMemoryImage (env : EngineEnv) (s : WrapperState) : MemImageOutcome :=
  if ¬ CheckLoaded s.isLoaded then
    { result := .error (.jsError notLoadedMsg), released := false }
  else
    let r := env.makeMemImage s.engine
    match r.1 with
    | none =>
      { result := .error (.jsError ("Failed to create memory image: " ++
          (if r.2 ≠ 0 then env.strerror r.2 else "Unknown error")))
        released := false }
    | some img =>
      if r.2 ≠ 0 then
        { result := .error (.jsError ("Failed to create memory image: " ++ env.strerror r.2))
          released := false }
      else
        { result := .ok (CreateImageDataObject img), released := true }

/-- CreateMemoryThumbnail (lines 559-586): as CreateMemoryImage but with
dcraw_make_mem_thumb. -/
def CreateMemoryThumbnail (env : EngineEnv) (s : WrapperState) : MemImageOutcome :=
  if ¬ CheckLoaded s.isLoaded then
    { result := .error (.jsError notLoadedMsg), released := false }
  else
    let r := env.makeMemThumb s.engine
    match r.1 with
    | none =>
      { result := .error (.jsError ("Failed to create memory thumbnail: " ++
          (if r.2 ≠ 0 then env.strerror r.2 else "Unknown error")))
        released := false }
    | some img =>
      if r.2 ≠ 0 then
        { result := .error (.jsError ("Failed to create memory thumbnail: " ++ env.strerror r.2))
          released := false }
      else
        { result := .ok (CreateImageDataObject img), released := true }

/-- WritePPM (lines 590-613): guard, then dcraw_ppm_tiff_writer on the
unmodified parameters; rethrow a failure. -/
def WritePPM (env : EngineEnv) (filename : String) (s : WrapperState) :
    WrapperState × Except JsError Bool :=
  if ¬ CheckLoaded s.isLoaded then
    (s, .error (.jsError notLoadedMsg))
  else
    let ret := env.ppmTiffWriter s.engine filename
    if ret ≠ 0 then
      (s, .error (.jsError ("Failed to write PPM file: " ++ env.strerror ret)))
    else
      (s, .ok true)

/-- WriteTIFF (lines 615-641): guard, set params.output_tiff to 1, then
dcraw_ppm_tiff_writer; the parameter assignment happens before the write
and is kept on both branches. -/
def WriteTIFF (env : EngineEnv) (filename : String) (s : WrapperState) :
    WrapperState × Except JsError Bool :=
  if ¬ CheckLoaded s.isLoaded then
    (s, .error (.jsError notLoadedMsg))
  else
    let e := { s.engine with params := { s.engine.params with output_tiff := 1 } }
    let ret := env.ppmTiffWriter e filename
    if ret ≠ 0 then
      ({ s with engine := e },
       .error (.jsError ("Failed to write TIFF file: " ++ env.strerror ret)))
    else
      ({ s with engine := e }, .ok true)

/-- The optional fields of the object accepted by SetOutputParams. -/
structure OutputParamsPatch where
  gamma : Option (Rat × Rat)
  bright : Option Rat
  output_color : Option Int
  output_bps : Option Int
  user_mul : Option (List Rat)
  no_auto_bright : Option Bool
  highlight : Option Int
  output_tiff : Option Bool
deriving Repr

/-- SetOutputParams (lines 670-741): guard, then copy each recognized
field that is present into imgdata.params; user_mul entries are copied
for indices below both 4 and the supplied array length. -/
def SetOutputParams (patch : OutputParamsPatch) (s : WrapperState) :
    WrapperState × Except JsError Bool :=
  if ¬ CheckLoaded s.isLoaded then
    (s, .error (.jsError notLoadedMsg))
  else
    let p0 := s.engine.params
    let p1 := match patch.gamma with
      | some g => { p0 with gamm0 := g.1, gamm1 := g.2 }
      | none => p0
    let p2 := match patch.bright with
      | some b => { p1 with bright := b }
      | none => p1
    let p3 := match patch.output_color with
      | some c => { p2 with output_color := c }
      | none => p2
    let p4 := match patch.output_bps with
      | some b => { p3 with output_bps := b }
      | none => p3
    let p5 := match patch.user_mul with
      | some l =>
        { p4 with user_mul0 := l.getD 0 p4.user_mul0
                  user_mul1 := l.getD 1 p4.user_mul1
                  user_mul2 := l.getD 2 p4.user_mul2
                  user_mul3 := l.getD 3 p4.user_mul3 }
      | none => p4
    let p6 := match patch.no_auto_bright with
      | some b => { p5 with no_auto_bright := if b then 1 else 0 }
      | none => p5
    let p7 := match patch.highlight with
      | some h => { p6 with highlight := h }
      | none => p6
    let p8 := match patch.output_tiff with
      | some b => { p7 with output_tiff := if b then 1 else 0 }
      | none => p7
    ({ s with engine := { s.engine with params := p8 } }, .ok true)

/-- The object returned by GetOutputParams; the int-valued flags
no_auto_bright and output_tiff are marshalled to JavaScript booleans. -/
structure OutputParamsObject where
  gamma0 : Rat
  gamma1 : Rat
  bright : Rat
  output_color : Int
  output_bps : Int
  no_auto_bright : Bool
  highlight : Int
  output_tiff : Bool
  user_mul0 : Rat
  user_mul1 : Rat
  user_mul2 : Rat
  user_mul3 : Rat
deriving Repr, DecidableEq

/-- GetOutputParams (lines 743-773): guard, then marshal the current
imgdata.params fields. -/
def GetOutputParams (s : WrapperState) : Except JsError OutputParamsObject :=
  if ¬ CheckLoaded s.isLoaded then
    .error (.jsError notLoadedMsg)
  else
    .ok { gamma0 := s.engine.params.gamm0
          gamma1 := s.engine.params.gamm1
          bright := s.engine.params.bright
          output_color := s.engine.params.output_color
          output_bps := s.engine.params.output_bps
          no_auto_bright := s.engine.params.no_auto_bright ≠ 0
          highlight := s.engine.params.highlight
          output_tiff := s.engine.params.output_tiff ≠ 0
          user_mul0 := s.engine.params.user_mul0
          user_mul1 := s.engine.params.user_mul1
          user_mul2 := s.engine.params.user_mul2
          user_mul3 := s.engine.params.user_mul3 }

/-- The object returned by GetMetadata: fields guarded by emptiness or
positivity checks in the source are optional. -/
structure MetadataObject where
  make : Option String
  model : Option String
  software : Option String
  width : Nat
  height : Nat
  rawWidth : Nat
  rawHeight : Nat
  colors : Int
  filters : Nat
  iso : Option Rat
  shutterSpeed : Option Rat
  aperture : Option Rat
  focalLength : Option Rat
  timestamp : Option Int
deriving Repr, DecidableEq

/-- GetMetadata (lines 184-240): guard, then marshal the imgdata fields;
strings are included when nonempty and the exposure fields when
positive. -/
def GetMetadata (s : WrapperState) : Except JsError MetadataObject :=
  if ¬ CheckLoaded s.isLoaded then
    .error (.jsError notLoadedMsg)
  else
    let m := s.engine.meta
    .ok { make := if m.make = "" then none else some m.make
          model := if m.model = "" then none else some m.model
          software := if m.software = "" then none else some m.software
          width := m.width
          height := m.height
          rawWidth := m.raw_width
          rawHeight := m.raw_height
          colors := m.colors
          filters := m.filters
          iso := if m.iso_speed > 0 then some m.iso_speed else none
          shutterSpeed := if m.shutter > 0 then some m.shutter else none
          aperture := if m.aperture > 0 then some m.aperture else none
          focalLength := if m.focal_len > 0 then some m.focal_len else none
          timestamp := if m.timestamp > 0 then some m.timestamp else none }

/-- ErrorCount (lines 817-825): guard, then return the engine's counter
of non-fatal decode defects. -/
def ErrorCount (s : WrapperState) : Except JsError Nat :=
  if ¬ CheckLoaded s.isLoaded then
    .error (.jsError notLoadedMsg)
  else
    .ok s.engine.errCount

/-- GetLastError (lines 1176-1183): no guard; the source returns one
fixed string regardless of the session state. -/
def GetLastError (_ : WrapperState) : String :=
  "No error information available"

/-- SubtractBlack (lines 454-469): guard, then subtract_black. -/
def SubtractBlack (env : EngineEnv) (s : WrapperState) :
    WrapperState × Except JsError Bool :=
  if ¬ CheckLoaded s.isLoaded then
    (s, .error (.jsError notLoadedMsg))
  else
    ({ s with engine := env.subtractBlackE s.engine }, .ok true)

/-- Raw2Image (lines 471-486): guard, then raw2image. -/
def Raw2Image (env : EngineEnv) (s : WrapperState) :
    WrapperState × Except JsError Bool :=
  if ¬ CheckLoaded s.isLoaded then
    (s, .error (.jsError notLoadedMsg))
  else
    ({ s with engine := env.raw2imageE s.engine }, .ok true)

/-- FreeImage (lines 1024-1032): guard, then free_image. -/
def FreeImage (env : EngineEnv) (s : WrapperState) :
    WrapperState × Except JsError Bool :=
  if ¬ CheckLoaded s.isLoaded then
    (s, .error (.jsError notLoadedMsg))
  else
    ({ s with engine := env.freeImageE s.engine }, .ok true)

/-- SetCancelFlag (lines 1129-1135): no guard; set the engine flag. -/
def SetCancelFlag (s : WrapperState) : WrapperState × Except JsError Bool :=
  ({ s with engine := { s.engine with cancel := true } }, .ok true)

/-- ClearCancelFlag (lines 1137-1143): no guard; clear the engine flag. -/
def ClearCancelFlag (s : WrapperState) : WrapperState × Except JsError Bool :=
  ({ s with engine := { s.engine with cancel := false } }, .ok true)

/-- The public operations of the wrapper that touch or depend on the
session state, with their JavaScript arguments. -/
inductive Op where
  | loadFile (filename : String)
  | loadBuffer (buf : List Nat)
  | close
  | unpackOp
  | unpackThumbnail
  | processImage
  | createMemoryImage
  | createMemoryThumbnail
  | writePPM (filename : String)
  | writeTIFF (filename : String)
  | setOutputParams (patch : OutputParamsPatch)
  | getOutputParams
  | getMetadata
  | errorCount
  | getLastError
  | subtractBlack
  | raw2Image
  | freeImage
  | setCancelFlag
  | clearCancelFlag

/-- One public call: the state after the call (queries leave it
unchanged; memory-image creation frees its own allocation and leaves the
wrapper state unchanged). -/
def step (env : EngineEnv) (s : WrapperState) : Op → WrapperState
  | .loadFile filename => (LoadFile env filename s).1
  | .loadBuffer buf => (LoadBuffer env buf s).1
  | .close => (Close s).1
  | .unpackOp => (Unpack env s).1
  | .unpackThumbnail => (UnpackThumbnail env s).1
  | .processImage => (ProcessImage env s).1
  | .createMemoryImage => s
  | .createMemoryThumbnail => s
  | .writePPM filename => (WritePPM env filename s).1
  | .writeTIFF filename => (WriteTIFF env filename s).1
  | .setOutputParams patch => (SetOutputParams patch s).1
  | .getOutputParams => s
  | .getMetadata => s
  | .errorCount => s
  | .getLastError => s
  | .subtractBlack => (SubtractBlack env s).1
  | .raw2Image => (Raw2Image env s).1
  | .freeImage => (FreeImage env s).1
  | .setCancelFlag => (SetCancelFlag s).1
  | .clearCancelFlag => (ClearCancelFlag s).1

/-- The state of a session after a sequence of public calls, starting
from the constructor's state. -/
def run (env : EngineEnv) (ops : List Op) : WrapperState :=
  ops.foldl (step env) WrapperState.ctor

/-- The state invariant maintained by every public operation: the
unpacked flag mirrors the loaded flag, a processed session is loaded, and
while the processed flag is down the engine holds no Output Image. -/
def Inv (s : WrapperState) : Prop :=
  s.isUnpacked = s.isLoaded ∧
  (s.isProcessed = true → s.isLoaded = true) ∧
  (s.isProcessed = false → s.engine.outImage = none)

theorem openSource_fst_outImage (env : EngineEnv) (src : ByteSource) (s : EngineState) :
    (env.openSource src s).1.outImage = none := by
  unfold EngineEnv.openSource
  by_cases h : env.openRet src = 0 <;>
    simp [h, EngineState.recycle, EngineState.init]

theorem unpack_fst_outImage (env : EngineEnv) (s : EngineState) :
    (env.unpack s).1.outImage = s.outImage := by
  unfold EngineEnv.unpack
  by_cases hu : s.unpacked = true
  · simp [hu]
  · simp only [hu, if_false, Bool.false_eq_true]
    cases s.opened with
    | none => rfl
    | some src => by_cases hr : env.unpackRet src = 0 <;> simp [hr]

theorem unpackThumb_fst_outImage (env : EngineEnv) (s : EngineState) :
    (env.unpackThumb s).1.outImage = s.outImage := by
  unfold EngineEnv.unpackThumb
  cases s.opened with
  | none => rfl
  | some src => by_cases hr : env.thumbRet src = 0 <;> simp [hr]

theorem dcrawProcess_fail_fst (env : EngineEnv) (s : EngineState)
    (h : (env.dcrawProcess s).2 ≠ 0) : (env.dcrawProcess s).1 = s := by
  by_cases hu : s.unpacked = true
  · by_cases hr : env.processRet s.sensor s.params = 0
    · exact absurd (by simp [EngineEnv.dcrawProcess, hu, hr]) h
    · simp [EngineEnv.dcrawProcess, hu, hr]
  · simp [EngineEnv.dcrawProcess, hu]

theorem inv_ctor : Inv WrapperState.ctor :=
  ⟨rfl, fun h => by simp [WrapperState.ctor] at h, fun _ => rfl⟩

theorem inv_step (env : EngineEnv) (s : WrapperState) (op : Op)
    (h : Inv s) : Inv (step env s op) := by
  obtain ⟨h1, h2, h3⟩ := h
  cases op with
  | loadFile filename =>
    simp only [step, LoadFile]
    split
    · exact ⟨h1, h2, fun _ => openSource_fst_outImage env _ s.engine⟩
    · split
      · exact ⟨h1, h2, fun _ => by
          rw [unpack_fst_outImage, openSource_fst_outImage]⟩
      · exact ⟨rfl, fun _ => rfl, fun _ => by
          rw [unpack_fst_outImage, openSource_fst_outImage]⟩
  | loadBuffer buf =>
    simp only [step, LoadBuffer]
    split
    · exact ⟨h1, h2, fun _ => openSource_fst_outImage env _ s.engine⟩
    · split
      · exact ⟨h1, h2, fun _ => by
          rw [unpack_fst_outImage, openSource_fst_outImage]⟩
      · exact ⟨rfl, fun _ => rfl, fun _ => by
          rw [unpack_fst_outImage, openSource_fst_outImage]⟩
  | close =>
    simp only [step, Close]
    split
    · exact ⟨rfl, fun h => by simp at h, fun _ => rfl⟩
    · exact ⟨h1, h2, h3⟩
  | unpackOp =>
    simp only [step, Unpack]
    split
    · exact ⟨h1, h2, h3⟩
    · split <;>
        exact ⟨h1, h2, fun hp => by rw [unpack_fst_outImage]; exact h3 hp⟩
  | unpackThumbnail =>
    simp only [step, UnpackThumbnail]
    split
    · exact ⟨h1, h2, h3⟩
    · split <;>
        exact ⟨h1, h2, fun hp => by rw [unpackThumb_fst_outImage]; exact h3 hp⟩
  | processImage =>
    simp only [step, ProcessImage]
    split
    · exact ⟨h1, h2, h3⟩
    · rename_i hload
      simp only [CheckLoaded, Bool.not_eq_true, not_not] at hload
      split
      · rename_i hr
        exact ⟨h1, h2, fun hp => by
          rw [dcrawProcess_fail_fst env s.engine hr]; exact h3 hp⟩
      · exact ⟨h1, fun _ => by simpa using hload, fun hp => by simp at hp⟩
  | createMemoryImage => exact ⟨h1, h2, h3⟩
  | createMemoryThumbnail => exact ⟨h1, h2, h3⟩
  | writePPM filename =>
    simp only [step, WritePPM]
    split
    · exact ⟨h1, h2, h3⟩
    · split <;> exact ⟨h1, h2, h3⟩
  | writeTIFF filename =>
    simp only [step, WriteTIFF]
    split
    · exact ⟨h1, h2, h3⟩
    · split <;> exact ⟨h1, h2, fun hp => h3 hp⟩
  | setOutputParams patch =>
    simp only [step, SetOutputParams]
    split
    · exact ⟨h1, h2, h3⟩
    · exact ⟨h1, h2, fun hp => h3 hp⟩
  | getOutputParams => exact ⟨h1, h2, h3⟩
  | getMetadata => exact ⟨h1, h2, h3⟩
  | errorCount => exact ⟨h1, h2, h3⟩
  | getLastError => exact ⟨h1, h2, h3⟩
  | subtractBlack =>
    simp only [step, SubtractBlack]
    split
    · exact ⟨h1, h2, h3⟩
    · exact ⟨h1, h2, fun hp => h3 hp⟩
  | raw2Image =>
    simp only [step, Raw2Image]
    split
    · exact ⟨h1, h2, h3⟩
    · exact ⟨h1, h2, fun hp => h3 hp⟩
  | freeImage =>
    simp only [step, FreeImage]
    split
    · exact ⟨h1, h2, h3⟩
    · exact ⟨h1, h2, fun _ => rfl⟩
  | setCancelFlag => exact ⟨h1, h2, fun hp => h3 hp⟩
  | clearCancelFlag => exact ⟨h1, h2, fun hp => h3 hp⟩

theorem inv_run (env : EngineEnv) (ops : List Op) : Inv (run env ops) := by
  rw [run]
  induction ops using List.reverseRecOn with
  | nil => exact inv_ctor
  | append_singleton l op ih =>
    rw [List.foldl_append, List.foldl_cons, List.foldl_nil]
    exact inv_step env _ op ih

/-- A concrete engine environment in which every external call succeeds,
used to evaluate the theorems on concrete sessions. -/
def envAllOk : EngineEnv :=
  { openRet := fun _ => 0
    metaOf := fun _ => { Metadata.init with make := "Maker", model := "M1", width := 2, height := 2 }
    unpackRet := fun _ => 0
    decode := fun _ => [7, 8, 9, 10]
    warnings := fun _ => 0
    thumbRet := fun _ => 0
    thumbOf := fun _ =>
      { type := 2, height := 1, width := 1, colors := 3, bits := 8, data_size := 3, data := [1, 2, 3] }
    processRet := fun _ _ => 0
    processOut := fun sensor _ =>
      { type := 2, height := 2, width := 2, colors := 3, bits := 8,
        data_size := sensor.length, data := sensor }
    writeRet := fun _ => 0
    blackSub := fun l => l
    strerror := fun _ => "Input/output error" }

/-- C9: in every reachable wrapper state isUnpacked equals isLoaded and
isProcessed implies isLoaded, and every public operation applied to a
reachable state preserves these flag relations. -/
theorem C9_flag_invariant (env : EngineEnv) (ops : List Op) (op : Op) :
    ((run env ops).isUnpacked = (run env ops).isLoaded ∧
      ((run env ops).isProcessed && !(run env ops).isLoaded) = false) ∧
    ((step env (run env ops) op).isUnpacked = (step env (run env ops) op).isLoaded ∧
      ((step env (run env ops) op).isProcessed && !(step env (run env ops) op).isLoaded) = false) := by
  have pack : ∀ t : WrapperState, Inv t →
      t.isUnpacked = t.isLoaded ∧ (t.isProcessed && !t.isLoaded) = false := by
    intro t ht
    refine ⟨ht.1, ?_⟩
    cases hp : t.isProcessed with
    | false => simp
    | true => simp [ht.2.1 hp]
  exact ⟨pack _ (inv_run env ops), pack _ (inv_step env (run env ops) op (inv_run env ops))⟩

/-- C8: getLastError returns the fixed string "No error information
available" in every session state; its result never depends on the state
or on which errors previously occurred. -/
theorem C8_getLastError_constant (s t : WrapperState) :
    GetLastError s = "No error information available" ∧ GetLastError s = GetLastError t :=
  ⟨rfl, rfl⟩

/-- C4: on a loaded session, processImage sets the processed flag exactly
when dcraw_process returns success; on a non-success code it throws and
the processed flag keeps its prior value. -/
theorem C4_process_marks_processed (env : EngineEnv) (s : WrapperState)
    (hL : s.isLoaded = true) :
    ((env.dcrawProcess s.engine).2 = 0 →
      (ProcessImage env s).1.isProcessed = true ∧ (ProcessImage env s).2 = .ok true) ∧
    ((env.dcrawProcess s.engine).2 ≠ 0 →
      resultOk (ProcessImage env s).2 = false ∧
      (ProcessImage env s).1.isProcessed = s.isProcessed) := by
  constructor
  · intro h0
    simp [ProcessImage, CheckLoaded, hL, h0]
  · intro hne
    simp [ProcessImage, CheckLoaded, hL, hne, resultOk]

theorem C4_process_marks_processed_witness :
    (run envAllOk [Op.loadFile "a"]).isLoaded = true ∧
    ((envAllOk.dcrawProcess (run envAllOk [Op.loadFile "a"]).engine).2 = 0 →
      (ProcessImage envAllOk (run envAllOk [Op.loadFile "a"])).1.isProcessed = true ∧
      (ProcessImage envAllOk (run envAllOk [Op.loadFile "a"])).2 = .ok true) ∧
    ((envAllOk.dcrawProcess (run envAllOk [Op.loadFile "a"]).engine).2 ≠ 0 →
      resultOk (ProcessImage envAllOk (run envAllOk [Op.loadFile "a"])).2 = false ∧
      (ProcessImage envAllOk (run envAllOk [Op.loadFile "a"])).1.isProcessed =
        (run envAllOk [Op.loadFile "a"]).isProcessed) := by
  refine ⟨by decide, ?_, ?_⟩
  · exact (C4_process_marks_processed envAllOk (run envAllOk [Op.loadFile "a"]) (by decide)).1
  · exact (C4_process_marks_processed envAllOk (run envAllOk [Op.loadFile "a"]) (by decide)).2

/-- C10: on a loaded session, writeTIFF sets params.output_tiff to 1
before the write and the setting persists in the post-call state whether
or not the write succeeds; getOutputParams on that state reports
output_tiff as true, and no other output parameter is modified. -/
theorem C10_writeTIFF_sets_output_tiff (env : EngineEnv) (fname : String)
    (s : WrapperState) (hL : s.isLoaded = true) :
    (WriteTIFF env fname s).1.engine.params.output_tiff = 1 ∧
    (WriteTIFF env fname s).1.engine.params =
      { s.engine.params with output_tiff := 1 } ∧
    GetOutputParams (WriteTIFF env fname s).1 =
      .ok { gamma0 := s.engine.params.gamm0
            gamma1 := s.engine.params.gamm1
            bright := s.engine.params.bright
            output_color := s.engine.params.output_color
            output_bps := s.engine.params.output_bps
            no_auto_bright := s.engine.params.no_auto_bright ≠ 0
            highlight := s.engine.params.highlight
            output_tiff := true
            user_mul0 := s.engine.params.user_mul0
            user_mul1 := s.engine.params.user_mul1
            user_mul2 := s.engine.params.user_mul2
            user_mul3 := s.engine.params.user_mul3 } ∧
    (WriteTIFF env fname s).1.isLoaded = s.isLoaded ∧
    (WriteTIFF env fname s).1.isUnpacked = s.isUnpacked ∧
    (WriteTIFF env fname s).1.isProcessed = s.isProcessed := by
  have hfst : (WriteTIFF env fname s).1 =
      { s with engine := { s.engine with params := { s.engine.params with output_tiff := 1 } } } := by
    rw [WriteTIFF, if_neg (by simp [CheckLoaded, hL])]
    dsimp only
    split <;> rfl
  rw [hfst]
  refine ⟨rfl, rfl, ?_, rfl, rfl, rfl⟩
  simp [GetOutputParams, CheckLoaded, hL]

theorem C10_writeTIFF_sets_output_tiff_witness :
    (run envAllOk [Op.loadFile "a"]).isLoaded = true ∧
    (WriteTIFF envAllOk "out.tiff" (run envAllOk [Op.loadFile "a"])).1.engine.params.output_tiff = 1 := by
  refine ⟨by decide, ?_⟩
  exact (C10_writeTIFF_sets_output_tiff envAllOk "out.tiff"
    (run envAllOk [Op.loadFile "a"]) (by decide)).1

/-- C1 (amended): in every reachable session that is loaded and unpacked
but not processed, createMemoryImage, writePPM and writeTIFF fail; and
createMemoryThumbnail also fails unless the thumbnail has been unpacked
(unpackThumbnail), since it requires the thumbnail, not the Output
Image. -/
theorem C1_require_output_image (env : EngineEnv) (ops : List Op) (fname : String)
    (hL : (run env ops).isLoaded = true)
    (hP : (run env ops).isProcessed = false) :
    resultOk (CreateMemoryImage env (run env ops)).result = false ∧
    resultOk (WritePPM env fname (run env ops)).2 = false ∧
    resultOk (WriteTIFF env fname (run env ops)).2 = false ∧
    ((run env ops).engine.thumbUnpacked = false →
      resultOk (CreateMemoryThumbnail env (run env ops)).result = false) := by
  have hout : (run env ops).engine.outImage = none := (inv_run env ops).2.2 hP
  have h4 : ((-4 : Int)) ≠ 0 := by decide
  refine ⟨?_, ?_, ?_, ?_⟩
  · rw [CreateMemoryImage, if_neg (by simp [CheckLoaded, hL])]
    simp [EngineEnv.makeMemImage, hout, resultOk]
  · rw [WritePPM, if_neg (by simp [CheckLoaded, hL])]
    simp [EngineEnv.ppmTiffWriter, hout, h4, resultOk]
  · rw [WriteTIFF, if_neg (by simp [CheckLoaded, hL])]
    simp [EngineEnv.ppmTiffWriter, hout, h4, resultOk]
  · intro hth
    rw [CreateMemoryThumbnail, if_neg (by simp [CheckLoaded, hL])]
    simp [EngineEnv.makeMemThumb, hth, resultOk]

theorem C1_require_output_image_witness :
    ((run envAllOk [Op.loadFile "a"]).isLoaded = true ∧
     (run envAllOk [Op.loadFile "a"]).isProcessed = false) ∧
    (resultOk (CreateMemoryImage envAllOk (run envAllOk [Op.loadFile "a"])).result = false ∧
     resultOk (WritePPM envAllOk "out.ppm" (run envAllOk [Op.loadFile "a"])).2 = false ∧
     resultOk (WriteTIFF envAllOk "out.ppm" (run envAllOk [Op.loadFile "a"])).2 = false ∧
     ((run envAllOk [Op.loadFile "a"]).engine.thumbUnpacked = false →
       resultOk (CreateMemoryThumbnail envAllOk (run envAllOk [Op.loadFile "a"])).result = false)) :=
  ⟨⟨by decide, by decide⟩,
   C1_require_output_image envAllOk [Op.loadFile "a"] "out.ppm" (by decide) (by decide)⟩

/-- C1 (counterexample to the claim as stated): a session that is loaded
and unpacked but not processed, in which createMemoryThumbnail succeeds
after unpackThumbnail, so not every listed operation fails. -/
theorem C1_counterexample :
    (run envAllOk [Op.loadFile "a", Op.unpackThumbnail]).isLoaded = true ∧
    (run envAllOk [Op.loadFile "a", Op.unpackThumbnail]).isUnpacked = true ∧
    (run envAllOk [Op.loadFile "a", Op.unpackThumbnail]).isProcessed = false ∧
    resultOk (CreateMemoryThumbnail envAllOk
      (run envAllOk [Op.loadFile "a", Op.unpackThumbnail])).result = true := by
  decide

/-- C3 (amended): in every reachable session where unpack has not
succeeded, getMetadata, errorCount, processImage and createMemoryImage
all fail with the one CheckLoaded guard error, the NotLoaded message "No
file loaded. Call loadFile() first."; the code has no separate
NotUnpacked error. -/
theorem C3_guard_error_is_notLoaded (env : EngineEnv) (ops : List Op)
    (hU : (run env ops).isUnpacked = false) :
    GetMetadata (run env ops) = .error (.jsError notLoadedMsg) ∧
    ErrorCount (run env ops) = .error (.jsError notLoadedMsg) ∧
    (ProcessImage env (run env ops)).2 = .error (.jsError notLoadedMsg) ∧
    (CreateMemoryImage env (run env ops)).result = .error (.jsError notLoadedMsg) := by
  have hL : (run env ops).isLoaded = false := ((inv_run env ops).1).symm.trans hU
  refine ⟨?_, ?_, ?_, ?_⟩
  · rw [GetMetadata, if_pos (by simp [CheckLoaded, hL])]
  · rw [ErrorCount, if_pos (by simp [CheckLoaded, hL])]
  · rw [ProcessImage, if_pos (by simp [CheckLoaded, hL])]
  · rw [CreateMemoryImage, if_pos (by simp [CheckLoaded, hL])]

theorem C3_guard_error_is_notLoaded_witness :
    (run envAllOk []).isUnpacked = false ∧
    (GetMetadata (run envAllOk []) = .error (.jsError notLoadedMsg) ∧
     ErrorCount (run envAllOk []) = .error (.jsError notLoadedMsg) ∧
     (ProcessImage envAllOk (run envAllOk [])).2 = .error (.jsError notLoadedMsg) ∧
     (CreateMemoryImage envAllOk (run envAllOk [])).result = .error (.jsError notLoadedMsg)) :=
  ⟨rfl, C3_guard_error_is_notLoaded envAllOk [] rfl⟩

/-- C3 (counterexample to the claim as stated): before unpack has
succeeded, processImage (and equally errorCount and createMemoryImage)
fails with exactly the same NotLoaded guard message the claim assigns to
getMetadata, not with a distinct StateError::NotUnpacked member. -/
theorem C3_counterexample :
    WrapperState.ctor.isUnpacked = false ∧
    (ProcessImage envAllOk WrapperState.ctor).2 =
      .error (.jsError "No file loaded. Call loadFile() first.") ∧
    GetMetadata WrapperState.ctor =
      .error (.jsError "No file loaded. Call loadFile() first.") ∧
    ErrorCount WrapperState.ctor =
      .error (.jsError "No file loaded. Call loadFile() first.") ∧
    (CreateMemoryImage envAllOk WrapperState.ctor).result =
      .error (.jsError "No file loaded. Call loadFile() first.") :=
  ⟨rfl, rfl, rfl, rfl, rfl⟩

theorem unpack_ok_unpacked (env : EngineEnv) (s : EngineState)
    (h : (env.unpack s).2 = 0) : (env.unpack s).1.unpacked = true := by
  by_cases hu : s.unpacked = true
  · simp [EngineEnv.unpack, hu]
  · cases ho : s.opened with
    | none => simp [EngineEnv.unpack, hu, ho] at h
    | some src =>
      by_cases hr : env.unpackRet src = 0
      · simp [EngineEnv.unpack, hu, ho, hr]
      · simp [EngineEnv.unpack, hu, ho, hr] at h

theorem LoadFile_ok (env : EngineEnv) (fname : String) (s : WrapperState)
    (h : resultOk (LoadFile env fname s).2 = true) :
    (LoadFile env fname s).1.isLoaded = true ∧
    (LoadFile env fname s).1.engine.unpacked = true := by
  unfold LoadFile at h ⊢
  by_cases h1 : (env.openSource (.file fname) s.engine).2 ≠ 0
  · rw [if_pos h1] at h; exact absurd h (by simp [resultOk])
  · rw [if_neg h1] at h ⊢
    by_cases h2 : (env.unpack (env.openSource (.file fname) s.engine).1).2 ≠ 0
    · rw [if_pos h2] at h; exact absurd h (by simp [resultOk])
    · rw [if_neg h2]
      exact ⟨rfl, unpack_ok_unpacked _ _ (not_not.mp h2)⟩

theorem LoadBuffer_ok (env : EngineEnv) (buf : List Nat) (s : WrapperState)
    (h : resultOk (LoadBuffer env buf s).2 = true) :
    (LoadBuffer env buf s).1.isLoaded = true ∧
    (LoadBuffer env buf s).1.engine.unpacked = true := by
  unfold LoadBuffer at h ⊢
  by_cases h1 : (env.openSource (.buffer buf) s.engine).2 ≠ 0
  · rw [if_pos h1] at h; exact absurd h (by simp [resultOk])
  · rw [if_neg h1] at h ⊢
    by_cases h2 : (env.unpack (env.openSource (.buffer buf) s.engine).1).2 ≠ 0
    · rw [if_pos h2] at h; exact absurd h (by simp [resultOk])
    · rw [if_neg h2]
      exact ⟨rfl, unpack_ok_unpacked _ _ (not_not.mp h2)⟩

theorem unpack_noop (env : EngineEnv) (s : WrapperState)
    (hL : s.isLoaded = true) (hU : s.engine.unpacked = true) :
    Unpack env s = (s, .ok true) := by
  have he : env.unpack s.engine = (s.engine, 0) := by
    unfold EngineEnv.unpack; rw [if_pos hU]
  rw [Unpack, if_neg (by simp [CheckLoaded, hL])]
  dsimp only
  rw [he]
  rfl

/-- C2: after a successful load (from a file or from a buffer, both of
which already unpacked), calling unpack() again returns success and
leaves the whole session state - the flags and all engine state including
the sensor data - unchanged. -/
theorem C2_unpack_idempotent_after_load (env : EngineEnv) (fname : String)
    (buf : List Nat) (s : WrapperState)
    (hf : resultOk (LoadFile env fname s).2 = true)
    (hb : resultOk (LoadBuffer env buf s).2 = true) :
    Unpack env (LoadFile env fname s).1 = ((LoadFile env fname s).1, .ok true) ∧
    Unpack env (LoadBuffer env buf s).1 = ((LoadBuffer env buf s).1, .ok true) := by
  obtain ⟨hL1, hU1⟩ := LoadFile_ok env fname s hf
  obtain ⟨hL2, hU2⟩ := LoadBuffer_ok env buf s hb
  exact ⟨unpack_noop env _ hL1 hU1, unpack_noop env _ hL2 hU2⟩

theorem C2_unpack_idempotent_after_load_witness :
    (resultOk (LoadFile envAllOk "a" WrapperState.ctor).2 = true ∧
     resultOk (LoadBuffer envAllOk [1, 2] WrapperState.ctor).2 = true) ∧
    (Unpack envAllOk (LoadFile envAllOk "a" WrapperState.ctor).1 =
      ((LoadFile envAllOk "a" WrapperState.ctor).1, .ok true) ∧
     Unpack envAllOk (LoadBuffer envAllOk [1, 2] WrapperState.ctor).1 =
      ((LoadBuffer envAllOk [1, 2] WrapperState.ctor).1, .ok true)) :=
  ⟨⟨by decide, by decide⟩,
   C2_unpack_idempotent_after_load envAllOk "a" [1, 2] WrapperState.ctor
     (by decide) (by decide)⟩

/-- C5: loadFile and loadBuffer throw exactly when the open step or the
unpack step returns a non-success code, and assign loaded and unpacked
true with processed reset to false exactly when both steps succeed,
leaving every flag at its prior value otherwise; no failure is silently
swallowed. -/
theorem C5_load_error_propagation (env : EngineEnv) (fname : String)
    (buf : List Nat) (s : WrapperState) :
    (resultOk (LoadFile env fname s).2 =
      (if env.openRet (.file fname) = 0 ∧ env.unpackRet (.file fname) = 0
        then true else false)) ∧
    ((LoadFile env fname s).1.isLoaded =
      (if env.openRet (.file fname) = 0 ∧ env.unpackRet (.file fname) = 0
        then true else s.isLoaded)) ∧
    ((LoadFile env fname s).1.isUnpacked =
      (if env.openRet (.file fname) = 0 ∧ env.unpackRet (.file fname) = 0
        then true else s.isUnpacked)) ∧
    ((LoadFile env fname s).1.isProcessed =
      (if env.openRet (.file fname) = 0 ∧ env.unpackRet (.file fname) = 0
        then false else s.isProcessed)) ∧
    (resultOk (LoadBuffer env buf s).2 =
      (if env.openRet (.buffer buf) = 0 ∧ env.unpackRet (.buffer buf) = 0
        then true else false)) ∧
    ((LoadBuffer env buf s).1.isLoaded =
      (if env.openRet (.buffer buf) = 0 ∧ env.unpackRet (.buffer buf) = 0
        then true else s.isLoaded)) ∧
    ((LoadBuffer env buf s).1.isUnpacked =
      (if env.openRet (.buffer buf) = 0 ∧ env.unpackRet (.buffer buf) = 0
        then true else s.isUnpacked)) ∧
    ((LoadBuffer env buf s).1.isProcessed =
      (if env.openRet (.buffer buf) = 0 ∧ env.unpackRet (.buffer buf) = 0
        then false else s.isProcessed)) := by
  refine ⟨?_, ?_, ?_, ?_, ?_, ?_, ?_, ?_⟩
  · by_cases ho : env.openRet (.file fname) = 0 <;>
      by_cases hu : env.unpackRet (.file fname) = 0 <;>
      simp [LoadFile, EngineEnv.openSource, EngineEnv.unpack,
        EngineState.recycle, EngineState.init, ho, hu, resultOk]
  · by_cases ho : env.openRet (.file fname) = 0 <;>
      by_cases hu : env.unpackRet (.file fname) = 0 <;>
      simp [LoadFile, EngineEnv.openSource, EngineEnv.unpack,
        EngineState.recycle, EngineState.init, ho, hu, resultOk]
  · by_cases ho : env.openRet (.file fname) = 0 <;>
      by_cases hu : env.unpackRet (.file fname) = 0 <;>
      simp [LoadFile, EngineEnv.openSource, EngineEnv.unpack,
        EngineState.recycle, EngineState.init, ho, hu, resultOk]
  · by_cases ho : env.openRet (.file fname) = 0 <;>
      by_cases hu : env.unpackRet (.file fname) = 0 <;>
      simp [LoadFile, EngineEnv.openSource, EngineEnv.unpack,
        EngineState.recycle, EngineState.init, ho, hu, resultOk]
  · by_cases ho : env.openRet (.buffer buf) = 0 <;>
      by_cases hu : env.unpackRet (.buffer buf) = 0 <;>
      simp [LoadBuffer, EngineEnv.openSource, EngineEnv.unpack,
        EngineState.recycle, EngineState.init, ho, hu, resultOk]
  · by_cases ho : env.openRet (.buffer buf) = 0 <;>
      by_cases hu : env.unpackRet (.buffer buf) = 0 <;>
      simp [LoadBuffer, EngineEnv.openSource, EngineEnv.unpack,
        EngineState.recycle, EngineState.init, ho, hu, resultOk]
  · by_cases ho : env.openRet (.buffer buf) = 0 <;>
      by_cases hu : env.unpackRet (.buffer buf) = 0 <;>
      simp [LoadBuffer, EngineEnv.openSource, EngineEnv.unpack,
        EngineState.recycle, EngineState.init, ho, hu, resultOk]
  · by_cases ho : env.openRet (.buffer buf) = 0 <;>
      by_cases hu : env.unpackRet (.buffer buf) = 0 <;>
      simp [LoadBuffer, EngineEnv.openSource, EngineEnv.unpack,
        EngineState.recycle, EngineState.init, ho, hu, resultOk]

/-- C6: a successful createMemoryImage (and likewise
createMemoryThumbnail) returns an object whose header fields (type,
height, width, colors, bits, dataSize) equal those of the engine's
processed image, whose data is a byte-for-byte copy, of length data_size,
of that image's pixel buffer, and the engine's allocation is released by
dcraw_clear_mem before the call returns. -/
theorem C6_memory_image_deep_copy (env : EngineEnv) (s : WrapperState)
    (img : ProcessedImage) (src : ByteSource)
    (hL : s.isLoaded = true)
    (hImg : s.engine.outImage = some img)
    (hlen : img.data.length = img.data_size)
    (hTh : s.engine.thumbUnpacked = true)
    (hSrc : s.engine.opened = some src)
    (htlen : (env.thumbOf src).data.length = (env.thumbOf src).data_size) :
    CreateMemoryImage env s =
      { result := .ok { type := img.type, height := img.height, width := img.width,
                        colors := img.colors, bits := img.bits,
                        dataSize := img.data_size, data := img.data },
        released := true } ∧
    CreateMemoryThumbnail env s =
      { result := .ok { type := (env.thumbOf src).type,
                        height := (env.thumbOf src).height,
                        width := (env.thumbOf src).width,
                        colors := (env.thumbOf src).colors,
                        bits := (env.thumbOf src).bits,
                        dataSize := (env.thumbOf src).data_size,
                        data := (env.thumbOf src).data },
        released := true } := by
  constructor
  · have hm : env.makeMemImage s.engine = (some img, 0) := by
      unfold EngineEnv.makeMemImage; rw [hImg]
    rw [CreateMemoryImage, if_neg (by simp [CheckLoaded, hL])]
    dsimp only
    rw [hm]
    simp only [CreateImageDataObject, ← hlen, List.take_length]
    rfl
  · have hm : env.makeMemThumb s.engine = (some (env.thumbOf src), 0) := by
      unfold EngineEnv.makeMemThumb; rw [if_pos hTh, hSrc]
    rw [CreateMemoryThumbnail, if_neg (by simp [CheckLoaded, hL])]
    dsimp only
    rw [hm]
    simp only [CreateImageDataObject, ← htlen, List.take_length]
    rfl

theorem C6_memory_image_deep_copy_witness :
    ((run envAllOk [Op.loadFile "a", Op.unpackThumbnail, Op.processImage]).isLoaded = true ∧
     (run envAllOk [Op.loadFile "a", Op.unpackThumbnail, Op.processImage]).engine.outImage =
       some { type := 2, height := 2, width := 2, colors := 3, bits := 8,
              data_size := 4, data := [7, 8, 9, 10] }) ∧
    CreateMemoryImage envAllOk
        (run envAllOk [Op.loadFile "a", Op.unpackThumbnail, Op.processImage]) =
      { result := .ok { type := 2, height := 2, width := 2, colors := 3, bits := 8,
                        dataSize := 4, data := [7, 8, 9, 10] },
        released := true } ∧
    CreateMemoryThumbnail envAllOk
        (run envAllOk [Op.loadFile "a", Op.unpackThumbnail, Op.processImage]) =
      { result := .ok { type := 2, height := 1, width := 1, colors := 3, bits := 8,
                        dataSize := 3, data := [1, 2, 3] },
        released := true } := by
  refine ⟨⟨by decide, by decide⟩, ?_⟩
  exact C6_memory_image_deep_copy envAllOk
    (run envAllOk [Op.loadFile "a", Op.unpackThumbnail, Op.processImage])
    { type := 2, height := 2, width := 2, colors := 3, bits := 8,
      data_size := 4, data := [7, 8, 9, 10] }
    (.file "a") (by decide) (by decide) (by decide) (by decide) (by decide) (by decide)

theorem dcrawProcess_ok (env : EngineEnv) (es : EngineState)
    (h : (env.dcrawProcess es).2 = 0) :
    es.unpacked = true ∧ env.processRet es.sensor es.params = 0 ∧
    (env.dcrawProcess es).1 =
      { es with outImage := some (env.processOut es.sensor es.params) } := by
  by_cases hu : es.unpacked = true
  · by_cases hr : env.processRet es.sensor es.params = 0
    · exact ⟨hu, hr, by simp [EngineEnv.dcrawProcess, hu, hr]⟩
    · simp [EngineEnv.dcrawProcess, hu, hr] at h
  · simp [EngineEnv.dcrawProcess, hu] at h

/-- C7: on a loaded session where process just succeeded, running process
a second time with unchanged OutputParams succeeds, leaves the wrapper
state identical, and a second createMemoryImage returns a byte-identical
object (same header fields and the same data bytes). -/
theorem C7_process_idempotent (env : EngineEnv) (s : WrapperState)
    (hL : s.isLoaded = true)
    (h1 : (ProcessImage env s).2 = .ok true) :
    (ProcessImage env (ProcessImage env s).1).2 = .ok true ∧
    (ProcessImage env (ProcessImage env s).1).1 = (ProcessImage env s).1 ∧
    CreateMemoryImage env (ProcessImage env (ProcessImage env s).1).1 =
      CreateMemoryImage env (ProcessImage env s).1 := by
  have hr0 : (env.dcrawProcess s.engine).2 = 0 := by
    by_contra hne
    rw [ProcessImage, if_neg (by simp [CheckLoaded, hL])] at h1
    dsimp only at h1
    rw [if_pos hne] at h1
    exact Except.noConfusion h1
  obtain ⟨hu, hpr, hfst⟩ := dcrawProcess_ok env s.engine hr0
  have hs1 : (ProcessImage env s).1 =
      { isLoaded := s.isLoaded, isUnpacked := s.isUnpacked, isProcessed := true,
        engine := { s.engine with
          outImage := some (env.processOut s.engine.sensor s.engine.params) } } := by
    rw [ProcessImage, if_neg (by simp [CheckLoaded, hL])]
    dsimp only
    rw [if_neg (fun hc => hc hr0), hfst]
  have h2nd : env.dcrawProcess
      ({ s.engine with
          outImage := some (env.processOut s.engine.sensor s.engine.params) }) =
      ({ s.engine with
          outImage := some (env.processOut s.engine.sensor s.engine.params) }, 0) := by
    unfold EngineEnv.dcrawProcess
    rw [if_pos hu, if_pos hpr]
  have hmain : ProcessImage env (ProcessImage env s).1 = ((ProcessImage env s).1, .ok true) := by
    rw [hs1, ProcessImage, if_neg (by simp [CheckLoaded, hL])]
    dsimp only
    rw [h2nd]
    rfl
  refine ⟨?_, ?_, ?_⟩
  · rw [hmain]
  · rw [hmain]
  · rw [hmain]

theorem C7_process_idempotent_witness :
    ((run envAllOk [Op.loadFile "a"]).isLoaded = true ∧
     (ProcessImage envAllOk (run envAllOk [Op.loadFile "a"])).2 = .ok true) ∧
    ((ProcessImage envAllOk (ProcessImage envAllOk (run envAllOk [Op.loadFile "a"])).1).2 =
      .ok true ∧
     (ProcessImage envAllOk (ProcessImage envAllOk (run envAllOk [Op.loadFile "a"])).1).1 =
      (ProcessImage envAllOk (run envAllOk [Op.loadFile "a"])).1 ∧
     CreateMemoryImage envAllOk
        (ProcessImage envAllOk (ProcessImage envAllOk (run envAllOk [Op.loadFile "a"])).1).1 =
      CreateMemoryImage envAllOk (ProcessImage envAllOk (run envAllOk [Op.loadFile "a"])).1) :=
  ⟨⟨by decide, by decide⟩,
   C7_process_idempotent envAllOk (run envAllOk [Op.loadFile "a"]) (by decide) (by decide)⟩

end LibRawBinding
